import Mathlib

/-!
Verification development for the exchange-connectivity core of the `exrs`
repository: the REST transport/response-classification layer
(`src/binance/client.rs`) and the futures WebSocket streaming engine
(`src/binance_f/websockets.rs`), shallowly embedded in Lean.
-/

namespace Exrs

/-! ## Error taxonomy and exchange error body

Modelled from the spec: the repository's `src/binance/errors.rs` module is
not included in the sources; the `Error` variants and the
`BinanceContentError` body shape are reconstructed from their uses in
`src/binance/client.rs` and `src/binance_f/websockets.rs` and from the
spec's error taxonomy (§7). -/

/-- The exchange-supplied JSON error body `{code, msg}` decoded from a
400-status response (`BinanceContentError` in the source). -/
structure BinanceContentError where
  code : Int
  msg : String
  deriving DecidableEq, Repr

/-- Modelled from the spec: the closed error taxonomy (`Error` enum of the
missing `errors.rs`), with exactly the variants used by `client.rs` and
`websockets.rs`: `Msg`, `InternalServerError`, `ServiceUnavailable`,
`Unauthorized`, `InvalidPrice`, `InvalidListenKey`, `BinanceError`, plus
the `From`-converted library failures: `ReqError` (reqwest transport or
body-decode failure), `InvalidHeaderError`, `Utf8Error`, `JsonError`
(serde decode), `TimestampError`, `WsError` (websocket protocol error). -/
inductive Error where
  | Msg (s : String)
  | InternalServerError
  | ServiceUnavailable
  | Unauthorized
  | InvalidPrice
  | InvalidListenKey (msg : String)
  | BinanceError (response : BinanceContentError)
  | ReqError
  | InvalidHeaderError
  | Utf8Error
  | JsonError
  | WsError
  deriving DecidableEq, Repr

namespace error_messages

/-- Modelled from the spec: the exact invalid-price message constant
(`error_messages::INVALID_PRICE` of the missing `errors.rs`); the claims
depend only on exact equality with this constant, not on its text. -/
def INVALID_PRICE : String := "Invalid price."

end error_messages

/-! ## Response classification (`src/binance/client.rs`)

`Client::handler` inspects the HTTP status; for 200 it reads the body
bytes and converts them from UTF-8, for 400 it JSON-decodes the body as a
`BinanceContentError`.  The embedding carries the outcome of those two
conversions in the response value: `bodyUtf8 = none` models invalid UTF-8
(the `?` on `std::str::from_utf8` yields a `Utf8Error`), `contentError =
none` models an unparseable error body (the `?` on `response.json()`
yields a reqwest decode error, `ReqError`). -/

/-- An HTTP response as `Client::handler` observes it: the status code, the
UTF-8 decoding of the body bytes, and the JSON decoding of the body as a
`BinanceContentError`. -/
structure HttpResponse where
  status : Nat
  bodyUtf8 : Option String
  contentError : Option BinanceContentError
  deriving DecidableEq, Repr

/-- `handle_content_error` (client.rs:266-272): the nested match on
`(error.code, error.msg)`. -/
def handle_content_error (error : BinanceContentError) : Error :=
  if error.code = -1013 ∧ error.msg = error_messages.INVALID_PRICE then
    Error.InvalidPrice
  else if error.code = -1125 then
    Error.InvalidListenKey error.msg
  else
    Error.BinanceError error

/-- `Client::handler` (client.rs:246-262): the match on `response.status()`.
The arms are, in source order: `OK` (200), `INTERNAL_SERVER_ERROR` (500),
`SERVICE_UNAVAILABLE` (503), `UNAUTHORIZED` (401), `BAD_REQUEST` (400),
and the catch-all `s => Err(Error::Msg(...))`. -/
def handler (response : HttpResponse) : Except Error String :=
  if response.status = 200 then
    match response.bodyUtf8 with
    | some body => Except.ok body
    | none => Except.error Error.Utf8Error
  else if response.status = 500 then Except.error Error.InternalServerError
  else if response.status = 503 then Except.error Error.ServiceUnavailable
  else if response.status = 401 then Except.error Error.Unauthorized
  else if response.status = 400 then
    match response.contentError with
    | some e => Except.error (handle_content_error e)
    | none => Except.error Error.ReqError
  else
    Except.error (Error.Msg ("Received response: " ++ toString response.status))

/-! ## Signer (`hmac_sha256::HMAC::mac` + `hex::encode`)

`Client::sign_request` calls `HMAC::mac(request.as_bytes(),
self.secret_key.as_bytes())` from the `hmac_sha256` crate and hex-encodes
the 32-byte tag.  The crate computes standard HMAC-SHA-256 (FIPS 198-1 /
RFC 2104 over FIPS 180-4 SHA-256); it is embedded here in full over byte
lists (`List Nat`, each element < 256) with explicit `% 2^32` masking. -/

namespace Sha256

/-- Truncate to a 32-bit word. -/
def w32 (n : Nat) : Nat := n % 4294967296

/-- Right rotation of a 32-bit word by `k`. -/
def rotr (k x : Nat) : Nat := w32 ((x >>> k) ||| (x <<< (32 - k)))

def ch (x y z : Nat) : Nat := (x &&& y) ^^^ ((4294967295 ^^^ x) &&& z)

def maj (x y z : Nat) : Nat := ((x &&& y) ^^^ (x &&& z)) ^^^ (y &&& z)

def bigSigma0 (x : Nat) : Nat := (rotr 2 x ^^^ rotr 13 x) ^^^ rotr 22 x

def bigSigma1 (x : Nat) : Nat := (rotr 6 x ^^^ rotr 11 x) ^^^ rotr 25 x

def smallSigma0 (x : Nat) : Nat := (rotr 7 x ^^^ rotr 18 x) ^^^ (x >>> 3)

def smallSigma1 (x : Nat) : Nat := (rotr 17 x ^^^ rotr 19 x) ^^^ (x >>> 10)

/-- The 64 SHA-256 round constants (FIPS 180-4 §4.2.2, written in
decimal). -/
def K : Array Nat := #[
  1116352408, 1899447441, 3049323471, 3921009573, 961987163,
  1508970993, 2453635748, 2870763221, 3624381080, 310598401,
  607225278, 1426881987, 1925078388, 2162078206, 2614888103,
  3248222580, 3835390401, 4022224774, 264347078, 604807628,
  770255983, 1249150122, 1555081692, 1996064986, 2554220882,
  2821834349, 2952996808, 3210313671, 3336571891, 3584528711,
  113926993, 338241895, 666307205, 773529912, 1294757372,
  1396182291, 1695183700, 1986661051, 2177026350, 2456956037,
  2730485921, 2820302411, 3259730800, 3345764771, 3516065817,
  3600352804, 4094571909, 275423344, 430227734, 506948616,
  659060556, 883997877, 958139571, 1322822218, 1537002063,
  1747873779, 1955562222, 2024104815, 2227730452, 2361852424,
  2428436474, 2756734187, 3204031479, 3329325298]

/-- The SHA-256 initial hash value (FIPS 180-4 §5.3.3, written in
decimal). -/
def H0 : List Nat :=
  [1779033703, 3144134277, 1013904242, 2773480762,
   1359893119, 2600822924, 528734635, 1541459225]

/-- Big-endian byte expansion of `n` into `k` bytes. -/
def beBytes : Nat → Nat → List Nat
  | 0, _ => []
  | k + 1, n => beBytes k (n / 256) ++ [n % 256]

/-- FIPS 180-4 padding: append `0x80`, zero bytes up to 56 mod 64, and the
message bit length as 8 big-endian bytes. -/
def padMessage (msg : List Nat) : List Nat :=
  msg ++ (0x80 :: List.replicate ((119 - msg.length % 64) % 64) 0) ++ beBytes 8 (8 * msg.length)

/-- Split a block of 64 bytes into 16 big-endian 32-bit words. -/
def toWords : List Nat → List Nat
  | a :: b :: c :: d :: rest => (((a * 256 + b) * 256 + c) * 256 + d) :: toWords rest
  | _ => []

/-- Extend the 16 message-schedule words to 64. -/
def buildSchedule (w0 : Array Nat) : Array Nat :=
  (List.range 48).foldl
    (fun w i =>
      let t := i + 16
      w.push (w32 (smallSigma1 (w.getD (t - 2) 0) + w.getD (t - 7) 0 +
                   smallSigma0 (w.getD (t - 15) 0) + w.getD (t - 16) 0)))
    w0

/-- One SHA-256 compression round on the register file `[a,b,c,d,e,f,g,h]`. -/
def round (st : List Nat) (k w : Nat) : List Nat :=
  match st with
  | [a, b, c, d, e, f, g, h] =>
    let t1 := w32 (h + bigSigma1 e + ch e f g + k + w)
    let t2 := w32 (bigSigma0 a + maj a b c)
    [w32 (t1 + t2), a, b, c, w32 (d + t1), e, f, g]
  | other => other

/-- Compress one 64-byte block into the running hash. -/
def processBlock (h : List Nat) (block : List Nat) : List Nat :=
  let ws := buildSchedule (toWords block).toArray
  let st := (List.range 64).foldl (fun st t => round st (K.getD t 0) (ws.getD t 0)) h
  List.zipWith (fun x y => w32 (x + y)) h st

/-- Fold the padded message block by block; `blocks` is the block count. -/
def processFrom (h : List Nat) (l : List Nat) : Nat → List Nat
  | 0 => h
  | n + 1 => processFrom (processBlock h (l.take 64)) (l.drop 64) n

/-- SHA-256 of a byte list, as a 32-element byte list. -/
def sha256 (msg : List Nat) : List Nat :=
  let padded := padMessage msg
  (processFrom H0 padded (padded.length / 64)).foldr (fun w acc => beBytes 4 w ++ acc) []

end Sha256

/-- HMAC-SHA-256 (`hmac_sha256::HMAC::mac(msg, key)`): key hashed if longer
than the 64-byte block, zero-padded, xored with ipad/opad. -/
def hmacSha256 (key msg : List Nat) : List Nat :=
  let k0 := if key.length > 64 then Sha256.sha256 key else key
  let kPad := k0 ++ List.replicate (64 - k0.length) 0
  Sha256.sha256 ((kPad.map (fun b => b ^^^ 0x5c)) ++
    Sha256.sha256 ((kPad.map (fun b => b ^^^ 0x36)) ++ msg))

/-- Lower-case hex digit. -/
def hexDigit (n : Nat) : Char :=
  if n < 10 then Char.ofNat (48 + n) else Char.ofNat (87 + n)

/-- `hex::encode`: lower-case hex string of a byte list. -/
def hexEncode (bytes : List Nat) : String :=
  String.mk (bytes.foldr (fun b acc => hexDigit (b / 16) :: hexDigit (b % 16) :: acc) [])

/-- UTF-8 encoding of one code point. -/
def utf8Bytes (n : Nat) : List Nat :=
  if n < 0x80 then [n]
  else if n < 0x800 then [0xc0 + n / 64, 0x80 + n % 64]
  else if n < 0x10000 then [0xe0 + n / 4096, 0x80 + n / 64 % 64, 0x80 + n % 64]
  else [0xf0 + n / 262144, 0x80 + n / 4096 % 64, 0x80 + n / 64 % 64, 0x80 + n % 64]

/-- The UTF-8 bytes of a string (`str::as_bytes`). -/
def strBytes (s : String) : List Nat :=
  s.data.foldr (fun c acc => utf8Bytes c.toNat ++ acc) []

set_option maxRecDepth 1000000 in
/-- Validation of the embedded hash against the FIPS 180-4 test vector for
`"abc"`. -/
theorem sha256_fips_vector :
    hexEncode (Sha256.sha256 (strBytes "abc")) =
      "ba7816bf8f01cfea414140de5dae2223b00361a396177a9cb410ff61f20015ad" := by
  decide

set_option maxRecDepth 1000000 in
/-- Validation of the embedded MAC against the classic HMAC-SHA-256 test
vector (key `"key"`, quick-brown-fox message). -/
theorem hmac_sha256_vector :
    hexEncode (hmacSha256 (strBytes "key")
        (strBytes "The quick brown fox jumps over the lazy dog")) =
      "f7bc83f430538424b13298e6aa6fb143ef4d59a14946175997479dbc2d1a3cd8" := by
  decide

/-! ## Transport client (`src/binance/client.rs`) -/

/-- The `Client` struct (client.rs:17-23): credentials and base host.  The
reusable `reqwest::Client` handle carries no request-relevant state and is
not modelled. -/
structure Client where
  api_key : String
  secret_key : String
  host : String
  deriving DecidableEq, Repr

/-- An outgoing HTTP request as the transport layer builds it: method, full
URL, header list, optional body. -/
structure HttpRequest where
  method : String
  url : String
  headers : List (String × String)
  body : Option String
  deriving DecidableEq, Repr

/-- `Client::sign_request` (client.rs:219-226): hex-encoded HMAC-SHA-256 of
the canonical request string under the secret key, appended as
`&signature=`; the URL is `host ++ endpoint ++ "?" ++ request_body`. -/
def Client.sign_request (c : Client) (endpoint request : String) : String :=
  let signature := hexEncode (hmacSha256 (strBytes c.secret_key) (strBytes request))
  let request_body := request ++ "&signature=" ++ signature
  c.host ++ endpoint ++ "?" ++ request_body

/-- A character `reqwest::header::HeaderValue::from_str` accepts: visible
ASCII, space or tab (multi-byte UTF-8 chars encode to bytes ≥ 128, also
accepted). -/
def isValidHeaderValueChar (c : Char) : Bool :=
  c = Char.ofNat 9 || (32 ≤ c.toNat && c.toNat ≠ 127)

/-- `Client::build_headers` (client.rs:228-244): always inserts the
user-agent and `x-mbx-apikey` headers; inserts content-type only when the
`content_type` flag is set.  `HeaderValue::from_str(api_key)?` fails on an
invalid header value. -/
def Client.build_headers (c : Client) (content_type : Bool) :
    Except Error (List (String × String)) :=
  if c.api_key.toList.all isValidHeaderValueChar then
    Except.ok ([("user-agent", "binance-rs")] ++
      (if content_type then [("content-type", "application/x-www-form-urlencoded")] else []) ++
      [("x-mbx-apikey", c.api_key)])
  else
    Except.error Error.InvalidHeaderError

/-- The request issued by `Client::get` (client.rs:142-151): plain
`reqwest::get`, no custom headers, query string appended only when
non-empty. -/
def Client.get_request (c : Client) (endpoint request : String) : HttpRequest :=
  { method := "GET"
    url := c.host ++ endpoint ++ (if request.isEmpty then "" else "?" ++ request)
    headers := []
    body := none }

/-- The request issued by `Client::post` (client.rs:172-184): unsigned URL
`host ++ endpoint`, headers from `build_headers(false)`, no body. -/
def Client.post_request (c : Client) (endpoint : String) : Except Error HttpRequest := do
  let h ← c.build_headers false
  Except.ok { method := "POST", url := c.host ++ endpoint, headers := h, body := none }

/-- The request issued by `Client::put` (client.rs:186-200): unsigned URL,
headers from `build_headers(false)`, body `listenKey=...`. -/
def Client.put_request (c : Client) (endpoint listen_key : String) :
    Except Error HttpRequest := do
  let h ← c.build_headers false
  Except.ok { method := "PUT", url := c.host ++ endpoint, headers := h,
              body := some ("listenKey=" ++ listen_key) }

/-- The request issued by `Client::get_signed` (client.rs:39-50): signed URL
from `sign_request`, headers from `build_headers(true)`. -/
def Client.get_signed_request (c : Client) (endpoint request : String) :
    Except Error HttpRequest := do
  let h ← c.build_headers true
  Except.ok { method := "GET", url := c.sign_request endpoint request,
              headers := h, body := none }

/-- `true` iff the character list `pat` occurs at the head of the second
list. -/
def leadsWith : List Char → List Char → Bool
  | [], _ => true
  | _ :: _, [] => false
  | p :: ps, c :: cs => decide (p = c) && leadsWith ps cs

/-- `true` iff `pat` occurs contiguously anywhere in the list. -/
def occursIn (pat : List Char) : List Char → Bool
  | [] => leadsWith pat []
  | c :: cs => leadsWith pat (c :: cs) || occursIn pat cs

/-- A URL carries a signature query parameter iff `&signature=` occurs in
it. -/
def urlHasSignatureParam (url : String) : Bool :=
  occursIn "&signature=".toList url.toList

/-- A header list carries the API-key header iff some entry is keyed
`x-mbx-apikey`. -/
def hasApiKeyHeader (hs : List (String × String)) : Bool :=
  hs.any (fun p => p.1 = "x-mbx-apikey")

/-! ## Futures WebSocket streaming engine (`src/binance_f/websockets.rs`)

`FuturesWebSockets<WE>` holds `socket: Option<(ClientResponse, Framed<..>)>`
and an mpsc sender.  The embedding models the framed socket as the list of
receive results it will yield (`socket.next()` returns the head;  an empty
list models the stream reporting `None`/exhausted) plus a closed flag set
by `close()`.  The consumer channel is modelled by a flag `senderOk`
(`local_channel` sends fail only when the receiver is gone), the network
write for pong replies by `pongOk`, and `serde_json::from_slice::<WE>` by
a caller-supplied `decode` function.  The shared `AtomicBool` is modelled
as the list of values the successive `running.load(..)` polls observe; an
exhausted list reads as `false` (the flag is eventually cleared). -/

/-- A websocket frame (`awc::ws::Frame`). -/
inductive Frame where
  | text (msg : List Nat)
  | binary (payload : List Nat)
  | continuation
  | ping (payload : List Nat)
  | pong (payload : List Nat)
  | close (reason : Option String)
  deriving DecidableEq, Repr

/-- View of `Except` as a sum, to derive decidable equality. -/
def exceptToSum {ε α : Type} : Except ε α → ε ⊕ α
  | Except.error e => Sum.inl e
  | Except.ok a => Sum.inr a

instance {ε α : Type} [DecidableEq ε] [DecidableEq α] : DecidableEq (Except ε α) :=
  fun a b =>
    decidable_of_iff (exceptToSum a = exceptToSum b)
      (by cases a <;> cases b <;> simp [exceptToSum])

/-- One result of `socket.next()` when a frame is available: the frame, or
a websocket protocol error (`Err(e)` propagated by the `?` on
`message?`). -/
def RecvItem : Type := Except Unit Frame

instance : DecidableEq RecvItem :=
  inferInstanceAs (DecidableEq (Except Unit Frame))

/-- The connected socket: the stream of receive results it will yield, and
whether `close()` has been called on it. -/
structure Socket where
  recvs : List RecvItem
  closed : Bool
  deriving DecidableEq

/-- The `FuturesWebSockets` state the claims concern: the optional socket.
The sender and config fields carry no state the claims depend on and are
passed as parameters where used. -/
structure FuturesWebSockets where
  socket : Option Socket
  deriving DecidableEq

/-- `FuturesWebSockets::new`/`new_with_options` (websockets.rs:89-102):
starts with `socket: None`. -/
def FuturesWebSockets.new : FuturesWebSockets := { socket := none }

/-- `FuturesWebSockets::connect` (websockets.rs:105-122): on a successful
handshake stores the answer in `self.socket`; on failure returns a
handshake error and leaves the state unchanged. -/
def FuturesWebSockets.connect (ws : FuturesWebSockets)
    (handshake : Except String Socket) : Except Error Unit × FuturesWebSockets :=
  match handshake with
  | Except.ok answer => (Except.ok (), { ws with socket := some answer })
  | Except.error e => (Except.error (Error.Msg ("Error during handshake " ++ e)), ws)

/-- `FuturesWebSockets::disconnect` (websockets.rs:125-132): when a socket
is present, awaits `socket.close()` (success modelled by `closeOk`) and
returns `Ok(())`; the `socket` field itself is not modified.  With no
socket it fails. -/
def FuturesWebSockets.disconnect (ws : FuturesWebSockets) (closeOk : Bool) :
    Except Error Unit × FuturesWebSockets :=
  match ws.socket with
  | some s =>
    if closeOk then
      (Except.ok (), { ws with socket := some { s with closed := true } })
    else
      (Except.error Error.WsError, { ws with socket := some { s with closed := true } })
  | none => (Except.error (Error.Msg "Not able to close the connection"), ws)

/-- The observable outcome of one `event_loop` run: its return value, the
events pushed to the consumer channel in order, the pong payloads sent in
order, the receive results left unconsumed on the socket, and how many
times `actix_rt::task::yield_now()` ran. -/
structure LoopOut (WE : Type) where
  result : Except Error Unit
  events : List WE
  pongs : List (List Nat)
  socketRest : Option (List RecvItem)
  yields : Nat
  deriving DecidableEq

/-- `FuturesWebSockets::event_loop` (websockets.rs:138-176).  Each
iteration first polls `running`; while it holds and a socket is present,
awaits one receive result and dispatches on it exactly as the source
match does: stream exhausted → `Err(Msg("Option::unwrap()..."))`; receive
error → propagated (`WsError`); empty text → `Ok(())`; non-empty text →
decode (failure → `JsonError`), then channel send (failure → `Err(Msg)`);
ping → send an empty pong (write failure propagates); pong, binary and
continuation ignored; close → `Err(Msg("Disconnected ..."))`.  After a
handled frame the task yields and the loop repeats. -/
def event_loop {WE : Type} (decode : List Nat → Option WE)
    (senderOk pongOk : Bool) :
    List Bool → Option (List RecvItem) → LoopOut WE
  | [], sock => ⟨Except.ok (), [], [], sock, 0⟩
  | false :: _, sock => ⟨Except.ok (), [], [], sock, 0⟩
  | true :: rest, none => event_loop decode senderOk pongOk rest none
  | true :: rest, some recvs =>
    match recvs with
    | [] =>
      ⟨Except.error (Error.Msg "Option::unwrap()` on a `None` value."), [], [], some [], 0⟩
    | Except.error _ :: fs => ⟨Except.error Error.WsError, [], [], some fs, 0⟩
    | Except.ok frame :: fs =>
      match frame with
      | Frame.text msg =>
        if msg.isEmpty then
          ⟨Except.ok (), [], [], some fs, 0⟩
        else
          match decode msg with
          | none => ⟨Except.error Error.JsonError, [], [], some fs, 0⟩
          | some event =>
            if senderOk then
              let r := event_loop decode senderOk pongOk rest (some fs)
              ⟨r.result, event :: r.events, r.pongs, r.socketRest, r.yields + 1⟩
            else
              ⟨Except.error (Error.Msg "SendError"), [], [], some fs, 0⟩
      | Frame.ping _ =>
        if pongOk then
          let r := event_loop decode senderOk pongOk rest (some fs)
          ⟨r.result, r.events, [] :: r.pongs, r.socketRest, r.yields + 1⟩
        else
          ⟨Except.error Error.WsError, [], [], some fs, 0⟩
      | Frame.pong _ =>
        let r := event_loop decode senderOk pongOk rest (some fs)
        ⟨r.result, r.events, r.pongs, r.socketRest, r.yields + 1⟩
      | Frame.binary _ =>
        let r := event_loop decode senderOk pongOk rest (some fs)
        ⟨r.result, r.events, r.pongs, r.socketRest, r.yields + 1⟩
      | Frame.continuation =>
        let r := event_loop decode senderOk pongOk rest (some fs)
        ⟨r.result, r.events, r.pongs, r.socketRest, r.yields + 1⟩
      | Frame.close reason =>
        ⟨Except.error (Error.Msg ("Disconnected " ++ reprStr reason)), [], [], some fs, 0⟩

/-! ## Claim theorems -/

/-- C1: for every exchange error body `{code, msg}` classified after an
HTTP 400 response: if `code = -1013` and `msg` equals the exact
invalid-price message constant, the result is `InvalidPrice`; otherwise if
`code = -1125`, the result is `InvalidListenKey msg`; for every other
`(code, msg)` pair the result is the generic `BinanceError` carrying the
original code and message unchanged. -/
theorem C1_domain_error_classification (code : Int) (msg : String) :
    (code = -1013 ∧ msg = error_messages.INVALID_PRICE →
      handle_content_error ⟨code, msg⟩ = Error.InvalidPrice) ∧
    (code = -1125 →
      handle_content_error ⟨code, msg⟩ = Error.InvalidListenKey msg) ∧
    (¬(code = -1013 ∧ msg = error_messages.INVALID_PRICE) → code ≠ -1125 →
      handle_content_error ⟨code, msg⟩ = Error.BinanceError ⟨code, msg⟩) := by
  refine ⟨?_, ?_, ?_⟩
  · rintro ⟨h1, h2⟩
    subst h1; subst h2
    rfl
  · intro h
    subst h
    simp [handle_content_error]
  · intro h1 h2
    unfold handle_content_error
    rw [if_neg h1, if_neg h2]

/-- Witness for C1: concrete inputs exercising all three arms. -/
theorem C1_domain_error_classification_witness :
    handle_content_error ⟨-1013, error_messages.INVALID_PRICE⟩ = Error.InvalidPrice ∧
    handle_content_error ⟨-1125, "key expired"⟩ = Error.InvalidListenKey "key expired" ∧
    handle_content_error ⟨-2010, "rejected"⟩ = Error.BinanceError ⟨-2010, "rejected"⟩ :=
  ⟨(C1_domain_error_classification (-1013) error_messages.INVALID_PRICE).1 ⟨rfl, rfl⟩,
   (C1_domain_error_classification (-1125) "key expired").2.1 rfl,
   (C1_domain_error_classification (-2010) "rejected").2.2 (by decide) (by decide)⟩

/-- C2: response classification is total — every status/body combination
(including an unparseable 400-status error body) maps to exactly one value
of the closed taxonomy, a success or a typed error, never a crash; a
400-status response whose body fails to decode yields the transport-decode
error value. -/
theorem C2_handler_total (r : HttpResponse) :
    ((∃ body, handler r = Except.ok body) ∨ (∃ e, handler r = Except.error e)) ∧
    (r.status = 400 → r.contentError = none → handler r = Except.error Error.ReqError) := by
  obtain ⟨status, bodyUtf8, contentError⟩ := r
  constructor
  · unfold handler
    dsimp only
    split_ifs
    · cases bodyUtf8
      · exact Or.inr ⟨_, rfl⟩
      · exact Or.inl ⟨_, rfl⟩
    · exact Or.inr ⟨_, rfl⟩
    · exact Or.inr ⟨_, rfl⟩
    · exact Or.inr ⟨_, rfl⟩
    · cases contentError
      · exact Or.inr ⟨_, rfl⟩
      · exact Or.inr ⟨_, rfl⟩
    · exact Or.inr ⟨_, rfl⟩
  · intro h400 hnone
    dsimp only at h400 hnone
    subst h400
    subst hnone
    rfl

/-- Witness for C2: a 400 response with an unparseable body is classified
as the transport-decode error. -/
theorem C2_handler_total_witness :
    ((∃ body, handler ⟨400, some "not json", none⟩ = Except.ok body) ∨
     (∃ e, handler ⟨400, some "not json", none⟩ = Except.error e)) ∧
    handler ⟨400, some "not json", none⟩ = Except.error Error.ReqError :=
  ⟨(C2_handler_total ⟨400, some "not json", none⟩).1,
   (C2_handler_total ⟨400, some "not json", none⟩).2 rfl rfl⟩

/-- Counterexample to C3: status 201 is in the 2xx class, yet `handler`
classifies it through the catch-all arm as an error, not as success — the
source matches only `StatusCode::OK` (exactly 200). -/
theorem C3_counterexample :
    (200 ≤ 201 ∧ 201 ≤ 299) ∧
    handler ⟨201, some "created", none⟩ =
      Except.error (Error.Msg "Received response: 201") :=
  ⟨by decide, rfl⟩

/-- C3 amended: exactly status 200 is classified as success, returning the
raw body; every other status — including every other 2xx code — produces
an error outcome. -/
theorem C3_only_status_200_is_success (status : Nat) (body : String)
    (ce : Option BinanceContentError) :
    handler ⟨200, some body, ce⟩ = Except.ok body ∧
    (status ≠ 200 → ∃ e, handler ⟨status, some body, ce⟩ = Except.error e) := by
  constructor
  · rfl
  · intro h
    unfold handler
    dsimp only
    rw [if_neg h]
    split_ifs
    · exact ⟨_, rfl⟩
    · exact ⟨_, rfl⟩
    · exact ⟨_, rfl⟩
    · cases ce
      · exact ⟨_, rfl⟩
      · exact ⟨_, rfl⟩
    · exact ⟨_, rfl⟩

/-- Witness for C3 amended: status 200 succeeds; status 201 errors. -/
theorem C3_only_status_200_is_success_witness :
    handler ⟨200, some "ok", none⟩ = Except.ok "ok" ∧
    ∃ e, handler ⟨201, some "ok", none⟩ = Except.error e :=
  ⟨(C3_only_status_200_is_success 201 "ok" none).1,
   (C3_only_status_200_is_success 201 "ok" none).2 (by decide)⟩

/-- C4: request signing is deterministic and pure — the signed URL is a
function of `(host, endpoint, request, secret)` alone (in particular the
api key plays no role), and equals the host and endpoint followed by the
canonical query with `&signature=` and the hex HMAC-SHA-256 tag
appended. -/
theorem C4_sign_request_deterministic
    (api_key api_key' secret host endpoint request : String) :
    Client.sign_request ⟨api_key, secret, host⟩ endpoint request =
      Client.sign_request ⟨api_key', secret, host⟩ endpoint request ∧
    Client.sign_request ⟨api_key, secret, host⟩ endpoint request =
      host ++ endpoint ++ "?" ++
        (request ++ "&signature=" ++
          hexEncode (hmacSha256 (strBytes secret) (strBytes request))) :=
  ⟨rfl, rfl⟩

/-- C5: an empty text frame makes the event loop return success
immediately: no event is sent for that frame, no pong, no yield, and the
remaining queued receive results are left unprocessed. -/
theorem C5_empty_text_graceful_stop {WE : Type} (decode : List Nat → Option WE)
    (senderOk pongOk : Bool) (rest : List Bool) (fs : List RecvItem) :
    event_loop decode senderOk pongOk (true :: rest)
        (some (Except.ok (Frame.text []) :: fs)) =
      ⟨Except.ok (), [], [], some fs, 0⟩ := rfl

/-- Counterexample to C6: a ping frame carrying payload `[1]` is answered
with exactly one pong, but its payload is the empty byte string, not the
ping's payload — the source always replies `Message::Pong(Bytes::from_static(b""))`. -/
theorem C6_counterexample :
    event_loop (fun _ => (none : Option Unit)) true true [true]
        (some [Except.ok (Frame.ping [1])]) =
      ⟨Except.ok (), [], [[]], some [], 1⟩ ∧
    ([] : List Nat) ≠ [1] :=
  ⟨rfl, by decide⟩

/-- C6 amended: a ping frame carrying any payload is answered with exactly
one pong whose payload is empty (regardless of the ping payload); no event
is delivered for that frame and the loop continues with the remaining
receive results. -/
theorem C6_ping_pong_reply {WE : Type} (decode : List Nat → Option WE)
    (senderOk : Bool) (b : List Nat) (rest : List Bool) (fs : List RecvItem) :
    event_loop decode senderOk true (true :: rest)
        (some (Except.ok (Frame.ping b) :: fs)) =
      (let r := event_loop decode senderOk true rest (some fs)
       ⟨r.result, r.events, [] :: r.pongs, r.socketRest, r.yields + 1⟩) := rfl

/-- C7: the running flag is polled before any receive; the moment it reads
false (also when the trace of readings is exhausted) the loop returns
success with no further receive, decode, forward or yield — the queued
receive results are untouched. -/
theorem C7_stop_condition_checked_first {WE : Type} (decode : List Nat → Option WE)
    (senderOk pongOk : Bool) (rest : List Bool) (sock : Option (List RecvItem)) :
    event_loop decode senderOk pongOk (false :: rest) sock =
      ⟨Except.ok (), [], [], sock, 0⟩ ∧
    event_loop decode senderOk pongOk [] sock =
      ⟨Except.ok (), [], [], sock, 0⟩ :=
  ⟨rfl, rfl⟩

/-- Counterexample to C8: starting from a session holding a live socket,
`disconnect` returns `Ok(())` yet the socket field still holds `Some` (the
closed connection) — the source never resets `self.socket` to `None`. -/
theorem C8_counterexample :
    (FuturesWebSockets.disconnect ⟨some ⟨[], false⟩⟩ true).1 = Except.ok () ∧
    (FuturesWebSockets.disconnect ⟨some ⟨[], false⟩⟩ true).2.socket ≠ none :=
  ⟨rfl, by decide⟩

/-- C8 amended: the socket field is `none` on a fresh session and `some`
after a successful connect; a successful `disconnect` closes the
underlying connection but leaves the field `some` (holding the closed
socket) rather than resetting it to `none`; `disconnect` with no
connection fails. -/
theorem C8_socket_lifecycle (ws : FuturesWebSockets) (s answer : Socket) :
    FuturesWebSockets.new.socket = none ∧
    ws.connect (Except.ok answer) = (Except.ok (), { socket := some answer }) ∧
    FuturesWebSockets.disconnect ⟨some s⟩ true =
      (Except.ok (), ⟨some { s with closed := true }⟩) ∧
    FuturesWebSockets.disconnect ⟨none⟩ true =
      (Except.error (Error.Msg "Not able to close the connection"), ⟨none⟩) :=
  ⟨rfl, rfl, rfl, rfl⟩

/-- Counterexample to C9: `Client::post` issues an unsigned request — its
URL carries no signature parameter — yet its headers do include the
API-key header, because `build_headers` inserts `x-mbx-apikey`
unconditionally. -/
theorem C9_counterexample :
    Client.post_request ⟨"key", "secret", "https://api.binance.com"⟩
        "/api/v3/userDataStream" =
      Except.ok { method := "POST"
                  url := "https://api.binance.com/api/v3/userDataStream"
                  headers := [("user-agent", "binance-rs"), ("x-mbx-apikey", "key")]
                  body := none } ∧
    urlHasSignatureParam "https://api.binance.com/api/v3/userDataStream" = false ∧
    hasApiKeyHeader [("user-agent", "binance-rs"), ("x-mbx-apikey", "key")] = true := by
  refine ⟨?_, ?_, ?_⟩ <;> decide

/-- C9 amended: signed requests carry both the `&signature=` query
parameter and the API-key header; the unsigned `Client::get` path carries
neither (it sends no custom headers at all and appends only the caller's
query); the unsigned `Client::post` path appends no signature (its URL is
exactly host ++ endpoint) but does include the API-key header. -/
theorem C9_signed_vs_unsigned (c : Client) (endpoint request : String)
    (hvalid : c.api_key.toList.all isValidHeaderValueChar = true) :
    (c.get_signed_request endpoint request =
        Except.ok { method := "GET", url := c.sign_request endpoint request
                    headers := [("user-agent", "binance-rs"),
                                ("content-type", "application/x-www-form-urlencoded"),
                                ("x-mbx-apikey", c.api_key)]
                    body := none } ∧
      hasApiKeyHeader [("user-agent", "binance-rs"),
                       ("content-type", "application/x-www-form-urlencoded"),
                       ("x-mbx-apikey", c.api_key)] = true ∧
      (∃ pre sig, c.sign_request endpoint request = pre ++ "&signature=" ++ sig)) ∧
    ((c.get_request endpoint request).headers = [] ∧
      hasApiKeyHeader (c.get_request endpoint request).headers = false ∧
      (c.get_request endpoint request).url =
        c.host ++ endpoint ++ (if request.isEmpty then "" else "?" ++ request)) ∧
    (c.post_request endpoint =
        Except.ok { method := "POST", url := c.host ++ endpoint
                    headers := [("user-agent", "binance-rs"), ("x-mbx-apikey", c.api_key)]
                    body := none } ∧
      hasApiKeyHeader [("user-agent", "binance-rs"), ("x-mbx-apikey", c.api_key)] = true) := by
  refine ⟨⟨?_, ?_, ?_⟩, ⟨rfl, rfl, rfl⟩, ⟨?_, ?_⟩⟩
  · unfold Client.get_signed_request Client.build_headers
    rw [if_pos hvalid]
    rfl
  · simp [hasApiKeyHeader]
  · refine ⟨c.host ++ endpoint ++ "?" ++ request,
      hexEncode (hmacSha256 (strBytes c.secret_key) (strBytes request)), ?_⟩
    simp [Client.sign_request, String.append_assoc]
  · unfold Client.post_request Client.build_headers
    rw [if_pos hvalid]
    rfl
  · simp [hasApiKeyHeader]

/-- Witness for C9 amended: a concrete client with a valid api key. -/
theorem C9_signed_vs_unsigned_witness :
    (Client.get_signed_request ⟨"key", "secret", "https://h"⟩ "/ep" "a=1" =
        Except.ok { method := "GET"
                    url := Client.sign_request ⟨"key", "secret", "https://h"⟩ "/ep" "a=1"
                    headers := [("user-agent", "binance-rs"),
                                ("content-type", "application/x-www-form-urlencoded"),
                                ("x-mbx-apikey", "key")]
                    body := none } ∧
      hasApiKeyHeader [("user-agent", "binance-rs"),
                       ("content-type", "application/x-www-form-urlencoded"),
                       ("x-mbx-apikey", "key")] = true ∧
      (∃ pre sig, Client.sign_request ⟨"key", "secret", "https://h"⟩ "/ep" "a=1" =
        pre ++ "&signature=" ++ sig)) ∧
    ((Client.get_request ⟨"key", "secret", "https://h"⟩ "/ep" "a=1").headers = [] ∧
      hasApiKeyHeader (Client.get_request ⟨"key", "secret", "https://h"⟩ "/ep" "a=1").headers
        = false ∧
      (Client.get_request ⟨"key", "secret", "https://h"⟩ "/ep" "a=1").url =
        "https://h" ++ "/ep" ++ (if ("a=1" : String).isEmpty then "" else "?" ++ "a=1")) ∧
    (Client.post_request ⟨"key", "secret", "https://h"⟩ "/ep" =
        Except.ok { method := "POST", url := "https://h" ++ "/ep"
                    headers := [("user-agent", "binance-rs"), ("x-mbx-apikey", "key")]
                    body := none } ∧
      hasApiKeyHeader [("user-agent", "binance-rs"), ("x-mbx-apikey", "key")] = true) :=
  C9_signed_vs_unsigned ⟨"key", "secret", "https://h"⟩ "/ep" "a=1" (by decide)

/-- C10: invoked with no connection (`socket` is `None`), the event loop
never errs, never receives a frame, never emits an event, and never
yields: it spins on the flag alone and returns success once the flag reads
false. -/
theorem C10_event_loop_no_socket {WE : Type} (decode : List Nat → Option WE)
    (senderOk pongOk : Bool) (running : List Bool) :
    event_loop decode senderOk pongOk running none =
      ⟨Except.ok (), [], [], none, 0⟩ := by
  induction running with
  | nil => rfl
  | cons b rest ih =>
    cases b
    · rfl
    · simpa [event_loop] using ih

end Exrs
